import Mathlib

/-!
Verification of the predicate-registry Solana program (sol-contracts).

The Rust sources are embedded shallowly:

* byte buffers (`[u8; N]`, `Vec<u8>`) become `List Nat` with each element a
  byte value;
* `Pubkey` becomes a 32-byte `List Nat`;
* `u64` becomes `Nat`, `i64` becomes `Int` (Anchor builds with
  overflow-checks, and the only checked arithmetic in the embedded paths is
  `checked_add` on the registry counters, modelled explicitly);
* fallible instruction handlers become functions into
  `Except PredicateRegistryError _`;
* the account store touched by the replay guard becomes an explicit map
  from UUID bytes to the stored record, and Anchor's account-constraint
  phase (which runs before an instruction body) is modelled as explicit
  checks performed before the body.

Definitions are translated from the sources under
`programs/predicate_registry/src/`.  A few data types used by those sources
are declared in an iteration of `state.rs` that is not part of the source
tree; these are modelled from the specification and are marked
`Modelled from the spec:` in their doc comments.
-/

namespace SolContracts

/-- Error codes of the predicate registry program, from `errors.rs`
(`PredicateRegistryError`).  Only the constructors reachable from the
embedded instruction handlers are listed. -/
inductive PredicateRegistryError
  | Unauthorized
  | ArithmeticError
  | AttestationExpired
  | StatementIdMismatch
  | ExpirationMismatch
  | InvalidSignature
  | AttesterNotRegisteredForValidation
  | PolicyIdTooLong
  | InvalidPolicyId
  | PolicyIdMismatch
  | UuidAlreadyUsed
  | StatementNotExpired
  | StatementExpired
  | WrongAttester
  | InvalidAccountData
  | ClockError
  | InvalidProgramData
  | InvalidClientProgram
  deriving DecidableEq, Repr

/-- Decidable equality for `Except` results, used to evaluate the embedded
handlers on concrete inputs. -/
instance {ε α : Type} [DecidableEq ε] [DecidableEq α] :
    DecidableEq (Except ε α) := fun a b =>
  match a, b with
  | .error e, .error f =>
    if h : e = f then .isTrue (by simp [h]) else .isFalse (by simp [h])
  | .error _, .ok _ => .isFalse (by simp)
  | .ok _, .error _ => .isFalse (by simp)
  | .ok x, .ok y =>
    if h : x = y then .isTrue (by simp [h]) else .isFalse (by simp [h])

/-- A Solana public key, modelled as its 32 bytes (`Pubkey::to_bytes`). -/
abbrev Pubkey := List Nat

/-- Little-endian encoding of a `u64` value (`u64::to_le_bytes`). -/
def u64LeBytes (n : Nat) : List Nat :=
  (List.range 8).map fun i => n / 256 ^ i % 256

/-- Little-endian two's-complement encoding of an `i64` value
(`i64::to_le_bytes`). -/
def i64LeBytes (x : Int) : List Nat :=
  u64LeBytes (x % (2 : Int) ^ 64).toNat

/-- Modelled from the spec: the "cryptographic hash function" of section 4.1
(the platform's SHA-256 primitive, `solana_program::hash::hash`, which lives
outside this repository).  It is modelled by an executable deterministic
function from byte buffers to 32-byte digests.  No theorem in this file
relies on any property of this function beyond it being a function of the
input buffer. -/
def solanaHash (data : List Nat) : List Nat :=
  (List.range 32).map fun i =>
    data.foldl (fun acc b => (acc * 257 + b + 1) % 2 ^ 64) (i + 1) % 256

/-- The `Task` structure from `state.rs`: uuid (16 bytes), msg_sender,
target, msg_value (`u64`), encoded_sig_and_args (`Vec<u8>`), policy
(`[u8; 200]`), expiration (`i64`). -/
structure Task where
  uuid : List Nat
  msg_sender : Pubkey
  target : Pubkey
  msg_value : Nat
  encoded_sig_and_args : List Nat
  policy : List Nat
  expiration : Int
  deriving DecidableEq, Repr

/-- `Task::get_policy` from `state.rs`: the policy truncated at the first
zero byte (`iter().position(|&b| b == 0).unwrap_or(200)` followed by a
slice up to that index; for the 200-byte policy array, `List.findIdx`
returning the list length when no zero byte exists coincides with the
`unwrap_or(200)` default). -/
def Task.get_policy (t : Task) : List Nat :=
  t.policy.take (t.policy.findIdx fun b => b == 0)

/-- `Task::hash_task_safe` from `state.rs`: hash of
uuid ‖ msg_sender ‖ validator ‖ msg_value-LE ‖ encoded_sig_and_args ‖
active-policy ‖ expiration-LE.  Note the third component is the validator
argument, not the task's `target`. -/
def Task.hash_task_safe (t : Task) (validator : Pubkey) : List Nat :=
  solanaHash
    (t.uuid ++ t.msg_sender ++ validator ++ u64LeBytes t.msg_value ++
      t.encoded_sig_and_args ++ t.get_policy ++ i64LeBytes t.expiration)

/-- `Task::hash_task_with_expiry` from `state.rs`: like
`Task.hash_task_safe` but with the task's own `target` as the third
component. -/
def Task.hash_task_with_expiry (t : Task) : List Nat :=
  solanaHash
    (t.uuid ++ t.msg_sender ++ t.target ++ u64LeBytes t.msg_value ++
      t.encoded_sig_and_args ++ t.get_policy ++ i64LeBytes t.expiration)

/-- The canonical-message layout written from the words of spec section 4.1:
"concatenating, in fixed order: uuid, task.msg_sender,
submitting-principal, msg_value (little-endian 8 bytes),
encoded_sig_and_args (raw), policy bytes, expiration (little-endian 8
bytes)".  The "policy bytes" of a Task are its active policy (the bytes
before the first zero byte of the fixed 200-byte array); the grouping of
the concatenation is deliberately different from the implementation's
stepwise buffer build. -/
def canonicalMessageSpec (t : Task) (submitter : Pubkey) : List Nat :=
  t.uuid ++
    (t.msg_sender ++
      (submitter ++
        (u64LeBytes t.msg_value ++
          (t.encoded_sig_and_args ++
            (t.get_policy ++ i64LeBytes t.expiration)))))

/-- Helper: truncating a list at the index of its first zero byte is the
same as taking the longest prefix of nonzero bytes. -/
theorem take_findIdx_zero_eq_takeWhile :
    ∀ l : List Nat,
      l.take (l.findIdx fun b => b == 0) = l.takeWhile (fun b => !(b == 0))
  | [] => rfl
  | a :: l => by
    by_cases h : a = 0
    · simp [List.findIdx_cons, List.takeWhile_cons, h]
    · have hb : (a == 0) = false := by simpa using h
      simp [List.findIdx_cons, List.takeWhile_cons, hb,
        take_findIdx_zero_eq_takeWhile l]

/-- C5: for every Task and submitting principal, `Task.hash_task_safe`
equals the hash of the concatenation, in the spec's fixed order, of the
uuid, the task's msg_sender, the submitting principal, the little-endian
msg_value, the raw encoded_sig_and_args, the policy bytes, and the
little-endian expiration. -/
theorem hash_task_safe_layout (t : Task) (submitter : Pubkey) :
    t.hash_task_safe submitter = solanaHash (canonicalMessageSpec t submitter) := by
  simp [Task.hash_task_safe, canonicalMessageSpec, List.append_assoc]

/-- A sample submitting principal for concrete evaluations. -/
def sampleSubmitter : Pubkey := List.replicate 32 9

/-- A sample task with a policy whose first zero byte is at index 1. -/
def taskA : Task where
  uuid := List.replicate 16 1
  msg_sender := List.replicate 32 2
  target := List.replicate 32 3
  msg_value := 500
  encoded_sig_and_args := [1, 2, 3, 4]
  policy := 7 :: List.replicate 199 0
  expiration := 3600

/-- `taskA` with only the target changed. -/
def taskB : Task := { taskA with target := List.replicate 32 4 }

/-- C6 counterexample: two concrete tasks identical in every field except
`target`, hashed with the same submitting principal, produce identical
digests under `Task.hash_task_safe` — the claim that the digests differ is
false (`hash_task_safe` does not read `target`; only
`hash_task_with_expiry` does). -/
theorem hash_task_safe_target_counterexample :
    taskA.target ≠ taskB.target ∧
    taskA.uuid = taskB.uuid ∧
    taskA.msg_sender = taskB.msg_sender ∧
    taskA.msg_value = taskB.msg_value ∧
    taskA.encoded_sig_and_args = taskB.encoded_sig_and_args ∧
    taskA.policy = taskB.policy ∧
    taskA.expiration = taskB.expiration ∧
    taskA.hash_task_safe sampleSubmitter = taskB.hash_task_safe sampleSubmitter :=
  ⟨by decide, rfl, rfl, rfl, rfl, rfl, rfl, rfl⟩

/-- C6 amended: `Task.hash_task_safe` does not bind the task's `target`:
any two tasks identical in every field except `target`, hashed with the
same submitting principal, produce identical digests. -/
theorem hash_task_safe_ignores_target (t1 t2 : Task) (v : Pubkey)
    (h1 : t1.uuid = t2.uuid) (h2 : t1.msg_sender = t2.msg_sender)
    (h3 : t1.msg_value = t2.msg_value)
    (h4 : t1.encoded_sig_and_args = t2.encoded_sig_and_args)
    (h5 : t1.policy = t2.policy) (h6 : t1.expiration = t2.expiration) :
    t1.hash_task_safe v = t2.hash_task_safe v := by
  simp [Task.hash_task_safe, Task.get_policy, h1, h2, h3, h4, h5, h6]

/-- Witness for `hash_task_safe_ignores_target` at the concrete tasks
`taskA`/`taskB`. -/
theorem hash_task_safe_ignores_target_witness :
    taskA.hash_task_safe sampleSubmitter = taskB.hash_task_safe sampleSubmitter :=
  hash_task_safe_ignores_target taskA taskB sampleSubmitter rfl rfl rfl rfl rfl rfl

/-- C10: `Task.hash_task_safe` depends on the 200-byte policy array only
through the prefix strictly before the first zero byte: tasks identical in
every other field whose policies agree on the maximal nonzero-byte prefix
hash to identical digests for every submitting principal. -/
theorem hash_task_safe_policy_truncation (t1 t2 : Task) (v : Pubkey)
    (h1 : t1.uuid = t2.uuid) (h2 : t1.msg_sender = t2.msg_sender)
    (_ht : t1.target = t2.target) (h3 : t1.msg_value = t2.msg_value)
    (h4 : t1.encoded_sig_and_args = t2.encoded_sig_and_args)
    (h6 : t1.expiration = t2.expiration)
    (hpol : t1.policy.takeWhile (fun b => !(b == 0)) =
      t2.policy.takeWhile (fun b => !(b == 0))) :
    t1.hash_task_safe v = t2.hash_task_safe v := by
  have hp : t1.get_policy = t2.get_policy := by
    simp [Task.get_policy, take_findIdx_zero_eq_takeWhile, hpol]
  simp [Task.hash_task_safe, h1, h2, h3, h4, h6, hp]

/-- A task with bytes after an embedded zero byte in the policy. -/
def taskP2 : Task :=
  { taskA with policy := 7 :: 0 :: 42 :: List.replicate 197 5 }

/-- Witness for `hash_task_safe_policy_truncation`: `taskA` and `taskP2`
have different policy arrays (differing only at and after the shared first
zero byte, index 1) yet identical digests. -/
theorem hash_task_safe_policy_truncation_witness :
    taskA.policy ≠ taskP2.policy ∧
    taskA.hash_task_safe sampleSubmitter = taskP2.hash_task_safe sampleSubmitter :=
  ⟨by decide,
    hash_task_safe_policy_truncation taskA taskP2 sampleSubmitter rfl rfl rfl rfl rfl rfl
      (by decide)⟩

/-- An instruction of the current transaction as seen through the
instructions sysvar: target program id, account list, raw data. -/
structure IxInfo where
  program_id : Pubkey
  accounts : List Pubkey
  data : List Nat
  deriving DecidableEq, Repr

/-- The instruction-introspection capability consumed by
`verify_ed25519_signature`: the key of the account supplied as the sysvar,
the current instruction index, and the transaction's instruction list. -/
structure InstructionsSysvar where
  key : Pubkey
  current_index : Nat
  instructions : List IxInfo
  deriving DecidableEq, Repr

/-- Modelled from the spec: the address of the platform's instruction-list
sysvar (`sysvar::instructions::ID`), outside this repository.  Only its
inequality with other keys matters. -/
def instructionsSysvarId : Pubkey := List.replicate 31 0 ++ [7]

/-- Modelled from the spec: the address of the platform's native Ed25519
verification program (`ed25519_program::ID`), outside this repository. -/
def ed25519ProgramId : Pubkey := List.replicate 31 0 ++ [8]

/-- Little-endian `u16` read at byte offset `i` of a data buffer. -/
def u16At (d : List Nat) (i : Nat) : Nat :=
  d.getD i 0 + 256 * d.getD (i + 1) 0

/-- The structural stage of `verify_ed25519_signature` from
`validate_attestation.rs`: locate the instruction immediately before the
current one, check that it is a stateless call of the native Ed25519
program whose fixed 16-byte header declares one signature, self-referential
(0xFFFF) instruction indices, offsets at or beyond the header, in-bounds
regions, and a 32-byte message; return the signature, public-key and
message regions of its data.  The errors are exactly those of the source:
`InvalidAccountData` for a wrong sysvar key, `InvalidSignature` for every
other structural failure.  The source's two conjunctive checks (the three
instruction indices, then the three offset lower bounds) short-circuit to
a single shared error and are rendered here as successive checks with
that error, which is observationally identical. -/
def ed25519Payload (sysvar : InstructionsSysvar) :
    Except PredicateRegistryError (List Nat × List Nat × List Nat) :=
  if sysvar.key ≠ instructionsSysvarId then .error .InvalidAccountData else
  if sysvar.current_index = 0 then .error .InvalidSignature else
  match sysvar.instructions.get? (sysvar.current_index - 1) with
  | none => .error .InvalidSignature
  | some ix =>
    if ix.program_id ≠ ed25519ProgramId then .error .InvalidSignature else
    if ¬ ix.accounts.isEmpty then .error .InvalidSignature else
    let d := ix.data
    if d.length < 16 then .error .InvalidSignature else
    if d.getD 0 0 ≠ 1 then .error .InvalidSignature else
    let sigOffset := u16At d 2
    let sigIxIdx := u16At d 4
    let pkOffset := u16At d 6
    let pkIxIdx := u16At d 8
    let msgOffset := u16At d 10
    let msgSize := u16At d 12
    let msgIxIdx := u16At d 14
    if sigIxIdx ≠ 65535 then .error .InvalidSignature else
    if pkIxIdx ≠ 65535 then .error .InvalidSignature else
    if msgIxIdx ≠ 65535 then .error .InvalidSignature else
    if sigOffset < 16 then .error .InvalidSignature else
    if pkOffset < 16 then .error .InvalidSignature else
    if msgOffset < 16 then .error .InvalidSignature else
    if d.length < sigOffset + 64 then .error .InvalidSignature else
    if d.length < pkOffset + 32 then .error .InvalidSignature else
    if d.length < msgOffset + msgSize then .error .InvalidSignature else
    if msgSize ≠ 32 then .error .InvalidSignature else
    .ok ((d.drop sigOffset).take 64, (d.drop pkOffset).take 32,
      (d.drop msgOffset).take msgSize)

/-- `verify_ed25519_signature` from `validate_attestation.rs`: the
structural stage (`ed25519Payload`) followed by the byte-for-byte
comparison of the sliced signature, public key and message regions against
the expected values, each mismatch failing with `InvalidSignature`. -/
def verify_ed25519_signature (signature pubkey message : List Nat)
    (sysvar : InstructionsSysvar) : Except PredicateRegistryError Unit :=
  match ed25519Payload sysvar with
  | .error e => .error e
  | .ok (sl, pl, ml) =>
    if sl ≠ signature then .error .InvalidSignature else
    if pl ≠ pubkey then .error .InvalidSignature else
    if ml ≠ message then .error .InvalidSignature else
    .ok ()

/-- C2: with the preceding native verification instruction's payload held
fixed (regions `sl`, `pl`, `ml`), `verify_ed25519_signature` succeeds on
exactly the triple equal to the payload regions, and fails with
`InvalidSignature` on every triple that differs anywhere (in particular in
a single byte of the signature, the public key, or the digest). -/
theorem verify_ed25519_signature_tamper (sysvar : InstructionsSysvar)
    (sl pl ml : List Nat)
    (h : ed25519Payload sysvar = .ok (sl, pl, ml)) :
    verify_ed25519_signature sl pl ml sysvar = .ok () ∧
    ∀ s p m : List Nat, (s, p, m) ≠ (sl, pl, ml) →
      verify_ed25519_signature s p m sysvar = .error .InvalidSignature := by
  constructor
  · simp [verify_ed25519_signature, h]
  · intro s p m hne
    by_cases hs : sl = s
    · by_cases hp : pl = p
      · by_cases hm : ml = m
        · exact absurd (by simp [hs, hp, hm]) hne
        · simp [verify_ed25519_signature, h, hs, hp, hm]
      · simp [verify_ed25519_signature, h, hs, hp]
    · simp [verify_ed25519_signature, h, hs]

/-- A well-formed Ed25519-program instruction data buffer: 16-byte header
declaring one signature, self-referential indices, signature at offset 16,
public key at offset 80, 32-byte message at offset 112. -/
def sampleEdData (sig pk msg : List Nat) : List Nat :=
  [1, 0, 16, 0, 255, 255, 80, 0, 255, 255, 112, 0, 32, 0, 255, 255] ++
    sig ++ pk ++ msg

/-- A concrete signature, public key and digest for the C2 witness. -/
def sampleSig : List Nat := List.replicate 64 11
def samplePk : List Nat := List.replicate 32 12
def sampleMsg : List Nat := List.replicate 32 13

/-- A sysvar view in which instruction 0 is a native Ed25519 verification
of (`sampleSig`, `samplePk`, `sampleMsg`) and the current instruction is
instruction 1. -/
def sampleSysvar : InstructionsSysvar where
  key := instructionsSysvarId
  current_index := 1
  instructions :=
    [{ program_id := ed25519ProgramId, accounts := [],
       data := sampleEdData sampleSig samplePk sampleMsg }]

set_option maxRecDepth 100000 in
/-- Witness for `verify_ed25519_signature_tamper`: on `sampleSysvar` the
exact triple verifies and a triple whose signature differs in a single
byte fails with `InvalidSignature`. -/
theorem verify_ed25519_signature_tamper_witness :
    verify_ed25519_signature sampleSig samplePk sampleMsg sampleSysvar = .ok () ∧
    verify_ed25519_signature (10 :: List.replicate 63 11) samplePk sampleMsg
      sampleSysvar = .error .InvalidSignature :=
  ⟨(verify_ed25519_signature_tamper sampleSysvar sampleSig samplePk sampleMsg
      (by decide)).1,
    (verify_ed25519_signature_tamper sampleSysvar sampleSig samplePk sampleMsg
      (by decide)).2 (10 :: List.replicate 63 11) samplePk sampleMsg (by decide)⟩

/-- Modelled from the spec: the `Statement` structure consumed by
`validate_attestation.rs` (its declaring iteration of `state.rs` is not in
the source tree).  Per spec section 3 it is the Task shape — uuid
(16 bytes), msg_sender, target, msg_value (`u64`), encoded_sig_and_args,
expiration (`i64`) — with the string policy identifier (`policy_id`) of the
program-owned-policy iteration, here as its bytes. -/
structure Statement where
  uuid : List Nat
  msg_sender : Pubkey
  target : Pubkey
  msg_value : Nat
  encoded_sig_and_args : List Nat
  policy_id : List Nat
  expiration : Int
  deriving DecidableEq, Repr

/-- Modelled from the spec: `Statement::hash_statement_safe`, the canonical
message builder invoked by `validate_attestation.rs` (spec section 4.1):
hash of uuid ‖ msg_sender ‖ submitting-principal ‖ msg_value-LE ‖
encoded_sig_and_args ‖ policy bytes ‖ expiration-LE. -/
def Statement.hash_statement_safe (s : Statement) (validator : Pubkey) :
    List Nat :=
  solanaHash
    (s.uuid ++ s.msg_sender ++ validator ++ u64LeBytes s.msg_value ++
      s.encoded_sig_and_args ++ s.policy_id ++ i64LeBytes s.expiration)

/-- The `Attestation` structure as used by `validate_attestation.rs`:
uuid (16 bytes), the attester's public key, the 64-byte Ed25519 signature
and the expiration (`i64`). -/
structure Attestation where
  uuid : List Nat
  attester : Pubkey
  signature : List Nat
  expiration : Int
  deriving DecidableEq, Repr

/-- The attester registration account (`AttestorAccount` in `state.rs`,
`AttesterAccount` in the iteration used by `mod.rs`). -/
structure AttesterAccount where
  attester : Pubkey
  is_registered : Bool
  registered_at : Int
  deriving DecidableEq, Repr

/-- Modelled from the spec: the program-owned policy account of the
`set_policy_id`/`update_policy_id` iteration (spec section 4.4): the
client program it belongs to, the authority that set it, the policy
identifier bytes, and timestamps. -/
structure PolicyIdAccount where
  client_program : Pubkey
  authority : Pubkey
  policy_id : List Nat
  set_at : Int
  updated_at : Int
  deriving DecidableEq, Repr

/-- Modelled from the spec: the `UsedUuidRecord` replay-guard account (spec
section 3): uuid, the signer/validator principal that paid for it, the
`used_at` timestamp and the recorded expiration. -/
structure UsedUuidAccount where
  uuid : List Nat
  signer : Pubkey
  used_at : Int
  expires_at : Int
  deriving DecidableEq, Repr

/-- The clock-drift tolerance declared locally inside
`validate_attestation` (`const CLOCK_DRIFT_BUFFER: i64 = 30`). -/
def validationClockDriftBuffer : Int := 30

/-- The shared clock-drift tolerance from `instructions/mod.rs`
(`pub const CLOCK_DRIFT_BUFFER: i64 = 30`), used by
`cleanup_expired_uuid`. -/
def CLOCK_DRIFT_BUFFER : Int := 30

/-- One invocation of `validate_attestation`: the instruction arguments
(statement, attester key, attestation), the accounts resolved for it, the
signing caller, the clock reading, and the instructions sysvar. -/
structure ValidateCall where
  statement : Statement
  attester_key : Pubkey
  attestation : Attestation
  attester_account : AttesterAccount
  policy_account : PolicyIdAccount
  validator : Pubkey
  now : Int
  sysvar : InstructionsSysvar
  deriving DecidableEq, Repr

/-- The body of `validate_attestation` from `validate_attestation.rs`
(lines 52-143), run after Anchor's account-constraint phase: input
validation (signature length, non-empty policy ids), business checks
(uuid match, expiration match, the two expiration checks with the 30-second
drift buffer, policy match, attester checks, registration), signature
proof via `verify_ed25519_signature` over
`Statement.hash_statement_safe`, and finally the `UsedUuidAccount` record
it writes. -/
def validateAttestationBody (c : ValidateCall) :
    Except PredicateRegistryError UsedUuidAccount :=
  if c.attestation.signature.length ≠ 64 then .error .InvalidSignature else
  if ¬ (c.statement.policy_id ≠ [] ∧ c.policy_account.policy_id ≠ []) then
    .error .InvalidPolicyId else
  if c.statement.uuid ≠ c.attestation.uuid then .error .StatementIdMismatch else
  if c.statement.expiration ≠ c.attestation.expiration then
    .error .ExpirationMismatch else
  if ¬ (c.now ≤ c.attestation.expiration + validationClockDriftBuffer) then
    .error .AttestationExpired else
  if ¬ (c.now ≤ c.statement.expiration + validationClockDriftBuffer) then
    .error .StatementExpired else
  if c.statement.policy_id ≠ c.policy_account.policy_id then
    .error .PolicyIdMismatch else
  if c.attester_key ≠ c.attester_account.attester then .error .WrongAttester else
  if c.attestation.attester ≠ c.attester_account.attester then
    .error .WrongAttester else
  if c.attester_account.is_registered ≠ true then
    .error .AttesterNotRegisteredForValidation else
  match verify_ed25519_signature c.attestation.signature c.attestation.attester
      (c.statement.hash_statement_safe c.validator) c.sysvar with
  | .error e => .error e
  | .ok _ =>
    .ok { uuid := c.statement.uuid, signer := c.validator,
          used_at := c.now, expires_at := c.statement.expiration }

/-- The replay-guard store: the `UsedUuidAccount` records that exist, keyed
by the UUID their storage address is derived from
(seeds `["used_uuid", attestation.uuid]` in `mod.rs`). -/
abbrev UuidStore := List Nat → Option UsedUuidAccount

/-- The store with no used-UUID records. -/
def emptyStore : UuidStore := fun _ => none

/-- The store after creating a record at a UUID slot. -/
def stepStore (store : UuidStore) (u : List Nat) (r : UsedUuidAccount) :
    UuidStore :=
  fun k => if k = u then some r else store k

/-- The whole `validate_attestation` instruction: Anchor's
account-constraint phase from the `ValidateAttestation` context in
`mod.rs`, in account order — the attester account's `is_registered`
constraint, the policy account's client-program constraint, and the
create-or-fail `init` of the used-UUID account at the slot derived from
`attestation.uuid` — followed by the handler body.  There is no separate
existence lookup: the `init` itself fails when a record already occupies
the slot. -/
def validateAttestationFull (store : UuidStore) (c : ValidateCall) :
    Except PredicateRegistryError UsedUuidAccount :=
  if c.attester_account.is_registered ≠ true then
    .error .AttesterNotRegisteredForValidation else
  if c.policy_account.client_program ≠ c.statement.target then
    .error .InvalidClientProgram else
  match store c.attestation.uuid with
  | some _ => .error .UuidAlreadyUsed
  | none => validateAttestationBody c

/-- The number of successful `validate_attestation` invocations carrying
UUID `u` in a sequence of calls, starting from a given store; each success
commits its record before the next call runs. -/
def successCountFrom (store : UuidStore) (u : List Nat) :
    List ValidateCall → Nat
  | [] => 0
  | c :: cs =>
    match validateAttestationFull store c with
    | .ok r =>
      (if c.attestation.uuid = u then 1 else 0) +
        successCountFrom (stepStore store c.attestation.uuid r) u cs
    | .error _ => successCountFrom store u cs

/-- Helper: a successful `validate_attestation` implies the used-UUID slot
was vacant when the instruction ran (the `init` would have failed
otherwise). -/
theorem full_ok_store_none (S : UuidStore) (c : ValidateCall)
    (r : UsedUuidAccount) (h : validateAttestationFull S c = .ok r) :
    S c.attestation.uuid = none := by
  unfold validateAttestationFull at h
  by_cases h1 : c.attester_account.is_registered ≠ true
  · simp [h1] at h
  · by_cases h2 : c.policy_account.client_program ≠ c.statement.target
    · simp [h1, h2] at h
    · simp [h1, h2] at h
      cases hs : S c.attestation.uuid with
      | none => rfl
      | some v => rw [hs] at h; simp at h

/-- Helper: once a record occupies a UUID slot, no later
`validate_attestation` call carrying that UUID succeeds, whatever the rest
of the trace does. -/
theorem successCount_of_used (u : List Nat) :
    ∀ (cs : List ValidateCall) (S : UuidStore), S u ≠ none →
      successCountFrom S u cs = 0
  | [], _, _ => rfl
  | c :: cs, S, hS => by
    cases h : validateAttestationFull S c with
    | error e => simpa [successCountFrom, h] using successCount_of_used u cs S hS
    | ok r =>
      have hnone := full_ok_store_none S c r h
      have hne : c.attestation.uuid ≠ u := fun he => hS (he ▸ hnone)
      have hstep : stepStore S c.attestation.uuid r u = S u := by
        unfold stepStore
        rw [if_neg fun hh : u = c.attestation.uuid => hne hh.symm]
      have ih := successCount_of_used u cs (stepStore S c.attestation.uuid r)
        (by rw [hstep]; exact hS)
      simp [successCountFrom, h, hne, ih]

/-- Helper: starting from a store where a UUID is unused, at most one call
of any `validate_attestation` trace carrying that UUID succeeds. -/
theorem successCount_le_one (u : List Nat) :
    ∀ (cs : List ValidateCall) (S : UuidStore), S u = none →
      successCountFrom S u cs ≤ 1
  | [], _, _ => by simp [successCountFrom]
  | c :: cs, S, hS => by
    cases h : validateAttestationFull S c with
    | error e => simpa [successCountFrom, h] using successCount_le_one u cs S hS
    | ok r =>
      by_cases hcu : c.attestation.uuid = u
      · subst hcu
        have h0 := successCount_of_used c.attestation.uuid cs
          (stepStore S c.attestation.uuid r) (by simp [stepStore])
        simp [successCountFrom, h, h0]
      · have hstep : stepStore S c.attestation.uuid r u = none := by
          unfold stepStore
          rw [if_neg fun hh : u = c.attestation.uuid => hcu hh.symm]
          exact hS
        simpa [successCountFrom, h, hcu] using
          successCount_le_one u cs (stepStore S c.attestation.uuid r) hstep

/-- C1: replay protection of `validate_attestation`.  (1) A success is a
create-or-fail on the slot derived from the attestation UUID: it requires
the slot to be vacant and leaves the record there; (2) whenever the slot is
occupied, a call carrying the same UUID whose other account constraints are
satisfied fails with the account-already-exists `UuidAlreadyUsed` error,
with no separate existence lookup; (3) hence in every trace of
`validate_attestation` calls starting from a store where the UUID is
unused, at most one call carrying that UUID ever succeeds. -/
theorem validate_attestation_replay_protection :
    (∀ (S : UuidStore) (c : ValidateCall) (r : UsedUuidAccount),
        validateAttestationFull S c = .ok r →
        S c.attestation.uuid = none ∧
        stepStore S c.attestation.uuid r c.attestation.uuid = some r) ∧
    (∀ (S : UuidStore) (c : ValidateCall),
        S c.attestation.uuid ≠ none →
        c.attester_account.is_registered = true →
        c.policy_account.client_program = c.statement.target →
        validateAttestationFull S c = .error .UuidAlreadyUsed) ∧
    (∀ (S : UuidStore) (u : List Nat) (cs : List ValidateCall),
        S u = none → successCountFrom S u cs ≤ 1) := by
  refine ⟨fun S c r h => ⟨full_ok_store_none S c r h, by simp [stepStore]⟩,
    fun S c hne h1 h2 => ?_,
    fun S u cs h => successCount_le_one u cs S h⟩
  cases hs : S c.attestation.uuid with
  | none => exact absurd hs hne
  | some v => simp [validateAttestationFull, h1, h2, hs]

/-- A statement for which a fully valid call can be assembled. -/
def sampleStatement : Statement where
  uuid := List.replicate 16 1
  msg_sender := List.replicate 32 2
  target := List.replicate 32 3
  msg_value := 500
  encoded_sig_and_args := [1, 2, 3, 4]
  policy_id := [100, 101]
  expiration := 3600

/-- The caller of the sample validation. -/
def sampleValidator : Pubkey := List.replicate 32 22

/-- The sample attestation vouching for `sampleStatement`. -/
def sampleAttestation : Attestation where
  uuid := List.replicate 16 1
  attester := List.replicate 32 21
  signature := List.replicate 64 23
  expiration := 3600

/-- A sysvar view whose preceding instruction is a native Ed25519
verification of the sample signature, the sample attester key, and the
canonical digest of `sampleStatement` for `sampleValidator`. -/
def sampleValidateSysvar : InstructionsSysvar where
  key := instructionsSysvarId
  current_index := 1
  instructions :=
    [{ program_id := ed25519ProgramId, accounts := [],
       data := sampleEdData (List.replicate 64 23) (List.replicate 32 21)
         (sampleStatement.hash_statement_safe sampleValidator) }]

/-- A fully valid `validate_attestation` call. -/
def sampleValidateCall : ValidateCall where
  statement := sampleStatement
  attester_key := List.replicate 32 21
  attestation := sampleAttestation
  attester_account :=
    { attester := List.replicate 32 21, is_registered := true,
      registered_at := 0 }
  policy_account :=
    { client_program := List.replicate 32 3, authority := List.replicate 32 30,
      policy_id := [100, 101], set_at := 0, updated_at := 0 }
  validator := sampleValidator
  now := 3600
  sysvar := sampleValidateSysvar

/-- The record `sampleValidateCall` commits. -/
def sampleRecord : UsedUuidAccount where
  uuid := List.replicate 16 1
  signer := sampleValidator
  used_at := 3600
  expires_at := 3600

set_option maxRecDepth 400000 in
/-- Witness for `validate_attestation_replay_protection`: the sample call
succeeds on the empty store and creates the record; replaying it against
the store holding that record fails with `UuidAlreadyUsed`; the two-call
trace has at most one success for the UUID. -/
theorem validate_attestation_replay_protection_witness :
    (emptyStore sampleValidateCall.attestation.uuid = none ∧
      stepStore emptyStore sampleValidateCall.attestation.uuid sampleRecord
        sampleValidateCall.attestation.uuid = some sampleRecord) ∧
    validateAttestationFull
      (stepStore emptyStore sampleValidateCall.attestation.uuid sampleRecord)
      sampleValidateCall = .error .UuidAlreadyUsed ∧
    successCountFrom emptyStore sampleValidateCall.attestation.uuid
      [sampleValidateCall, sampleValidateCall] ≤ 1 :=
  ⟨validate_attestation_replay_protection.1 emptyStore sampleValidateCall
      sampleRecord (by decide),
    validate_attestation_replay_protection.2.1
      (stepStore emptyStore sampleValidateCall.attestation.uuid sampleRecord)
      sampleValidateCall (by decide) (by decide) (by decide),
    validate_attestation_replay_protection.2.2 emptyStore
      sampleValidateCall.attestation.uuid
      [sampleValidateCall, sampleValidateCall] rfl⟩

/-- C3 counterexample: a call one second past the drift window with every
earlier check satisfiable fails with `AttestationExpired`, not
`StatementExpired` — the statement-expiry branch never reports, because
the expiration-equality check runs first and the attestation-expiry check
precedes the statement-expiry check. -/
def lateCall : ValidateCall := { sampleValidateCall with now := 3631 }

/-- C3 counterexample theorem: at `lateCall` the current timestamp is
strictly past the statement's expiration plus the 30-second buffer, yet
the body fails with `AttestationExpired` rather than `StatementExpired`. -/
theorem expiration_error_counterexample :
    lateCall.statement.expiration + validationClockDriftBuffer < lateCall.now ∧
    validateAttestationBody lateCall = .error .AttestationExpired ∧
    PredicateRegistryError.AttestationExpired ≠
      PredicateRegistryError.StatementExpired :=
  ⟨by decide, by decide, by decide⟩

/-- C3 amended: for calls whose input validation, uuid match and
expiration match pass, a current timestamp strictly past
expiration + 30 seconds fails with `AttestationExpired` (the statement
check, which would report `StatementExpired`, is unreachable because the
attestation check precedes it and the expirations are required equal);
and whenever the current timestamp is at most expiration + 30 — in
particular at exactly expiration + 30 — both expiration checks pass and an
otherwise fully valid call succeeds: the boundary is inclusive on the
success side. -/
theorem validate_expiration_boundary (c : ValidateCall)
    (h1 : c.attestation.signature.length = 64)
    (h2 : c.statement.policy_id ≠ []) (h3 : c.policy_account.policy_id ≠ [])
    (h4 : c.statement.uuid = c.attestation.uuid)
    (h5 : c.statement.expiration = c.attestation.expiration)
    (h6 : c.statement.policy_id = c.policy_account.policy_id)
    (h7 : c.attester_key = c.attester_account.attester)
    (h8 : c.attestation.attester = c.attester_account.attester)
    (h9 : c.attester_account.is_registered = true)
    (h10 : verify_ed25519_signature c.attestation.signature
      c.attestation.attester (c.statement.hash_statement_safe c.validator)
      c.sysvar = .ok ()) :
    (c.statement.expiration + validationClockDriftBuffer < c.now →
        validateAttestationBody c = .error .AttestationExpired) ∧
    (c.now ≤ c.statement.expiration + validationClockDriftBuffer →
        validateAttestationBody c =
          .ok { uuid := c.statement.uuid, signer := c.validator,
                used_at := c.now, expires_at := c.statement.expiration }) := by
  constructor
  · intro hlt
    have hcA : ¬ (c.now ≤ c.attestation.expiration + validationClockDriftBuffer) := by
      rw [← h5]; omega
    unfold validateAttestationBody
    rw [if_neg (by simp [h1]), if_neg (by simp [h2, h3]),
      if_neg (by simp [h4]), if_neg (by simp [h5]), if_pos hcA]
  · intro hle
    have hcA : c.now ≤ c.attestation.expiration + validationClockDriftBuffer := by
      rw [← h5]; omega
    have hcS : c.now ≤ c.statement.expiration + validationClockDriftBuffer := by
      omega
    unfold validateAttestationBody
    rw [if_neg (by simp [h1]), if_neg (by simp [h2, h3]),
      if_neg (by simp [h4]), if_neg (by simp [h5]),
      if_neg (by simp [hcA]), if_neg (by simp [hcS]),
      if_neg (by simp [h6]), if_neg (by simp [h7]),
      if_neg (by simp [h8]), if_neg (by simp [h9]), h10]

/-- A call at the exact drift-buffer boundary. -/
def boundaryCall : ValidateCall := { sampleValidateCall with now := 3630 }

/-- The record committed by `boundaryCall`. -/
def boundaryRecord : UsedUuidAccount :=
  { sampleRecord with used_at := 3630 }

set_option maxRecDepth 400000 in
/-- Witness for `validate_expiration_boundary` at `lateCall` (one second
past the window: `AttestationExpired`) and `boundaryCall` (exactly at the
window: validation succeeds). -/
theorem validate_expiration_boundary_witness :
    validateAttestationBody lateCall = .error .AttestationExpired ∧
    validateAttestationBody boundaryCall = .ok boundaryRecord :=
  ⟨(validate_expiration_boundary lateCall (by decide) (by decide) (by decide)
      (by decide) (by decide) (by decide) (by decide) (by decide) (by decide)
      (by decide)).1 (by decide),
    (validate_expiration_boundary boundaryCall (by decide) (by decide)
      (by decide) (by decide) (by decide) (by decide) (by decide) (by decide)
      (by decide) (by decide)).2 (by decide)⟩

/-- C8 counterexample: a call whose statement uuid differs from the
attestation uuid but whose statement policy id is empty.  The
input-validation stage precedes the uuid comparison, so the body fails
with `InvalidPolicyId`, not `StatementIdMismatch`. -/
def emptyPolicyStatement : Statement :=
  { sampleStatement with policy_id := [], uuid := List.replicate 16 2 }

/-- The call packaging `emptyPolicyStatement` with the sample accounts. -/
def emptyPolicyCall : ValidateCall :=
  { sampleValidateCall with statement := emptyPolicyStatement }

/-- C8 counterexample theorem: at `emptyPolicyCall` the uuids mismatch yet
the result is `InvalidPolicyId` — the claim "fails with
`StatementIdMismatch` regardless of the validity of all other fields" is
false for an empty policy id. -/
theorem uuid_mismatch_counterexample :
    emptyPolicyCall.statement.uuid ≠ emptyPolicyCall.attestation.uuid ∧
    validateAttestationBody emptyPolicyCall = .error .InvalidPolicyId ∧
    PredicateRegistryError.InvalidPolicyId ≠
      PredicateRegistryError.StatementIdMismatch :=
  ⟨by decide, by decide, by decide⟩

/-- C8 amended: provided the input-validation stage passes (the signature
is 64 bytes — guaranteed by the `[u8; 64]` type in the source — and both
policy ids are non-empty), a statement uuid differing from the attestation
uuid always fails with `StatementIdMismatch`, regardless of every other
field of the pair. -/
theorem validate_uuid_mismatch (c : ValidateCall)
    (h1 : c.attestation.signature.length = 64)
    (h2 : c.statement.policy_id ≠ []) (h3 : c.policy_account.policy_id ≠ [])
    (h4 : c.statement.uuid ≠ c.attestation.uuid) :
    validateAttestationBody c = .error .StatementIdMismatch := by
  unfold validateAttestationBody
  rw [if_neg (by simp [h1]), if_neg (by simp [h2, h3]), if_pos h4]

/-- A uuid-mismatch call in which every remaining field of the pair is
invalid: mismatched and long-past expirations, an unregistered attester
account with a different key, and a late clock. -/
def mismatchStatement : Statement :=
  { sampleStatement with uuid := List.replicate 16 3, expiration := -5 }

/-- An unregistered attester account under a different key. -/
def bogusAttesterAccount : AttesterAccount :=
  { attester := List.replicate 32 99, is_registered := false,
    registered_at := 0 }

/-- The uuid-mismatch call with every remaining field invalid. -/
def mismatchCall : ValidateCall :=
  { sampleValidateCall with
    statement := mismatchStatement
    attester_account := bogusAttesterAccount
    now := 999999 }

/-- Witness for `validate_uuid_mismatch` at `mismatchCall`. -/
theorem validate_uuid_mismatch_witness :
    validateAttestationBody mismatchCall = .error .StatementIdMismatch :=
  validate_uuid_mismatch mismatchCall (by decide) (by decide) (by decide)
    (by decide)

/-- One invocation of `cleanup_expired_uuid`: the record being closed, the
account named to receive the rent refund, and the clock reading. -/
structure CleanupCall where
  used_uuid_account : UsedUuidAccount
  signer_recipient : Pubkey
  now : Int
  deriving DecidableEq, Repr

/-- `cleanup_expired_uuid` from `cleanup_expired_uuid.rs` together with the
`CleanupExpiredUuid` context of `mod.rs`: the Anchor constraint requires
the refund recipient to equal the record's original payer
(`signer_recipient.key() == used_uuid_account.signer`, `Unauthorized`
otherwise), and the body requires the record's expiration plus the shared
`CLOCK_DRIFT_BUFFER` to be strictly in the past (`StatementNotExpired`
otherwise) before the account is closed and its rent refunded. -/
def cleanup_expired_uuid (c : CleanupCall) :
    Except PredicateRegistryError Unit :=
  if c.signer_recipient ≠ c.used_uuid_account.signer then
    .error .Unauthorized else
  if ¬ (c.used_uuid_account.expires_at + CLOCK_DRIFT_BUFFER < c.now) then
    .error .StatementNotExpired else
  .ok ()

/-- C4: with the refund recipient equal to the record's original payer,
`cleanup_expired_uuid` fails with `StatementNotExpired` exactly when the
current timestamp is at most the stored expiration plus the 30-second
drift buffer, and succeeds (closing the record) when the timestamp is
strictly greater; a call naming any other refund recipient is rejected
with `Unauthorized`; and the buffer is the same constant the validation
path uses. -/
theorem cleanup_expired_uuid_spec (c : CleanupCall) :
    (c.signer_recipient = c.used_uuid_account.signer →
      ((cleanup_expired_uuid c = .error .StatementNotExpired ↔
          c.now ≤ c.used_uuid_account.expires_at + CLOCK_DRIFT_BUFFER) ∧
        (c.used_uuid_account.expires_at + CLOCK_DRIFT_BUFFER < c.now →
          cleanup_expired_uuid c = .ok ()))) ∧
    (c.signer_recipient ≠ c.used_uuid_account.signer →
      cleanup_expired_uuid c = .error .Unauthorized) ∧
    CLOCK_DRIFT_BUFFER = validationClockDriftBuffer := by
  refine ⟨fun hs => ⟨?_, fun hlt => ?_⟩, fun hs => ?_, rfl⟩
  · unfold cleanup_expired_uuid
    rw [if_neg (by simp [hs])]
    by_cases hc : c.used_uuid_account.expires_at + CLOCK_DRIFT_BUFFER < c.now
    · rw [if_neg (by simp [hc])]
      simp only [reduceCtorEq, false_iff]
      omega
    · rw [if_pos hc]
      simp only [true_iff]
      omega
  · unfold cleanup_expired_uuid
    rw [if_neg (by simp [hs]), if_neg (by simp [hlt])]
  · unfold cleanup_expired_uuid
    rw [if_pos hs]

/-- The spec's concrete cleanup scenario one second inside the buffer
window (`T+3600+29`). -/
def cleanupEarly : CleanupCall where
  used_uuid_account := sampleRecord
  signer_recipient := sampleValidator
  now := 3629

/-- The same scenario just outside the window (`T+3600+31`). -/
def cleanupLate : CleanupCall := { cleanupEarly with now := 3631 }

/-- The late scenario with the refund redirected to a different
principal. -/
def cleanupWrong : CleanupCall :=
  { cleanupLate with signer_recipient := List.replicate 32 50 }

/-- Witness for `cleanup_expired_uuid_spec`: inside the window the call
fails `StatementNotExpired`, past the window it succeeds, and redirecting
the refund fails `Unauthorized`. -/
theorem cleanup_expired_uuid_spec_witness :
    cleanup_expired_uuid cleanupEarly = .error .StatementNotExpired ∧
    cleanup_expired_uuid cleanupLate = .ok () ∧
    cleanup_expired_uuid cleanupWrong = .error .Unauthorized :=
  ⟨((cleanup_expired_uuid_spec cleanupEarly).1 (by decide)).1.mpr (by decide),
    ((cleanup_expired_uuid_spec cleanupLate).1 (by decide)).2 (by decide),
    (cleanup_expired_uuid_spec cleanupWrong).2.1 (by decide)⟩

/-- The little-endian `u32` discriminator read from the first four bytes
of a ProgramData account (`u32::from_le_bytes` on bytes 0-3). -/
def programDataDiscriminator (pd : List Nat) : Nat :=
  pd.getD 0 0 + 256 * pd.getD 1 0 + 65536 * pd.getD 2 0 +
    16777216 * pd.getD 3 0

/-- The upgrade-authority key read from bytes 13..45 of a ProgramData
account. -/
def programDataAuthority (pd : List Nat) : Pubkey :=
  (pd.drop 13).take 32

/-- `verify_upgrade_authority` from `instructions/mod.rs`: requires at
least 45 bytes and discriminator 3 (`InvalidProgramData` otherwise), then
the option byte at index 12 to equal 1 and the authority at bytes 13..45
to equal the expected signer (`Unauthorized` otherwise). -/
def verify_upgrade_authority (program_data : List Nat)
    (expected_authority : Pubkey) : Except PredicateRegistryError Unit :=
  if program_data.length < 45 then .error .InvalidProgramData else
  if programDataDiscriminator program_data ≠ 3 then
    .error .InvalidProgramData else
  if program_data.getD 12 0 ≠ 1 then .error .Unauthorized else
  if programDataAuthority program_data ≠ expected_authority then
    .error .Unauthorized else
  .ok ()

/-- The upgrade-authority verification sequence written inline in
`set_policy_id.rs` (lines 37-66). -/
def setPolicyIdAuthCheck (program_data : List Nat) (authority : Pubkey) :
    Except PredicateRegistryError Unit :=
  if program_data.length < 45 then .error .InvalidProgramData else
  if programDataDiscriminator program_data ≠ 3 then
    .error .InvalidProgramData else
  if program_data.getD 12 0 ≠ 1 then .error .Unauthorized else
  if programDataAuthority program_data ≠ authority then
    .error .Unauthorized else
  .ok ()

/-- The upgrade-authority verification sequence written inline in
`update_policy_id.rs` (lines 36-65). -/
def updatePolicyIdAuthCheck (program_data : List Nat) (authority : Pubkey) :
    Except PredicateRegistryError Unit :=
  if program_data.length < 45 then .error .InvalidProgramData else
  if programDataDiscriminator program_data ≠ 3 then
    .error .InvalidProgramData else
  if program_data.getD 12 0 ≠ 1 then .error .Unauthorized else
  if programDataAuthority program_data ≠ authority then
    .error .Unauthorized else
  .ok ()

/-- C9: for every program-data byte buffer and every expected authority,
the standalone helper `verify_upgrade_authority` and the inline sequences
embedded in `set_policy_id` and `update_policy_id` compute the same
accept/reject decision and the same error on every rejected input. -/
theorem upgrade_authority_check_equivalence :
    ∀ (pd : List Nat) (a : Pubkey),
      setPolicyIdAuthCheck pd a = verify_upgrade_authority pd a ∧
      updatePolicyIdAuthCheck pd a = verify_upgrade_authority pd a :=
  fun _ _ => ⟨rfl, rfl⟩

/-- Helper: the rejection behaviour of `verify_upgrade_authority`. -/
theorem verify_upgrade_authority_errors (pd : List Nat) (a : Pubkey) :
    ((pd.length < 45 ∨ programDataDiscriminator pd ≠ 3) →
      verify_upgrade_authority pd a = .error .InvalidProgramData) ∧
    (45 ≤ pd.length → programDataDiscriminator pd = 3 →
      (pd.getD 12 0 ≠ 1 ∨ programDataAuthority pd ≠ a) →
      verify_upgrade_authority pd a = .error .Unauthorized) := by
  constructor
  · rintro (h | h)
    · unfold verify_upgrade_authority; rw [if_pos h]
    · unfold verify_upgrade_authority
      by_cases c1 : pd.length < 45
      · rw [if_pos c1]
      · rw [if_neg c1, if_pos h]
  · intro g1 g2 g3
    unfold verify_upgrade_authority
    rw [if_neg (by omega), if_neg (by simp [g2])]
    rcases g3 with h | h
    · rw [if_pos h]
    · by_cases c3 : pd.getD 12 0 ≠ 1
      · rw [if_pos c3]
      · rw [if_neg c3, if_pos h]

/-- Helper: `verify_upgrade_authority` accepts exactly the well-formed
buffers naming the expected authority. -/
theorem verify_upgrade_authority_ok_iff (pd : List Nat) (a : Pubkey) :
    verify_upgrade_authority pd a = .ok () ↔
      45 ≤ pd.length ∧ programDataDiscriminator pd = 3 ∧
        pd.getD 12 0 = 1 ∧ programDataAuthority pd = a := by
  unfold verify_upgrade_authority
  by_cases c1 : pd.length < 45
  · rw [if_pos c1]
    exact ⟨fun h => by simp at h, fun hc => absurd hc.1 (by omega)⟩
  · rw [if_neg c1]
    by_cases c2 : programDataDiscriminator pd ≠ 3
    · rw [if_pos c2]
      exact ⟨fun h => by simp at h, fun hc => absurd hc.2.1 c2⟩
    · rw [if_neg c2]
      by_cases c3 : pd.getD 12 0 ≠ 1
      · rw [if_pos c3]
        exact ⟨fun h => by simp at h, fun hc => absurd hc.2.2.1 c3⟩
      · rw [if_neg c3]
        by_cases c4 : programDataAuthority pd ≠ a
        · rw [if_pos c4]
          exact ⟨fun h => by simp at h, fun hc => absurd hc.2.2.2 c4⟩
        · rw [if_neg c4]
          push_neg at c1 c2 c3 c4
          exact ⟨fun _ => ⟨c1, c2, c3, c4⟩, fun _ => rfl⟩

/-- One invocation of `set_policy_id`: the policy-id argument, the
program-data account bytes, the client program, the signing authority, the
registry's current policy count and the clock reading. -/
structure SetPolicyIdCall where
  policy_id : List Nat
  program_data : List Nat
  client_program : Pubkey
  authority : Pubkey
  total_policies : Nat
  now : Int
  deriving DecidableEq, Repr

/-- `set_policy_id` from `set_policy_id.rs`: policy-id validation
(non-empty, at most 64 bytes), the inline upgrade-authority verification,
then creation of the policy account and the checked increment of the
registry policy counter (`ArithmeticError` on `u64` overflow). -/
def set_policy_id (c : SetPolicyIdCall) :
    Except PredicateRegistryError PolicyIdAccount :=
  if c.policy_id = [] then .error .InvalidPolicyId else
  if 64 < c.policy_id.length then .error .PolicyIdTooLong else
  match setPolicyIdAuthCheck c.program_data c.authority with
  | .error e => .error e
  | .ok _ =>
    if 2 ^ 64 ≤ c.total_policies + 1 then .error .ArithmeticError else
    .ok { client_program := c.client_program, authority := c.authority,
          policy_id := c.policy_id, set_at := c.now, updated_at := c.now }

/-- One invocation of `update_policy_id`: the existing policy account, the
client-program argument, the new policy id, the program-data bytes, the
signing authority and the clock reading. -/
structure UpdatePolicyIdCall where
  policy_account : PolicyIdAccount
  client_program : Pubkey
  policy_id : List Nat
  program_data : List Nat
  authority : Pubkey
  now : Int
  deriving DecidableEq, Repr

/-- `update_policy_id` from `update_policy_id.rs` together with the
`UpdatePolicyId` context constraint of `mod.rs` (the stored policy account
must belong to the supplied client program, `InvalidClientProgram`
otherwise): policy-id validation, the inline upgrade-authority
verification, then the in-place update of the policy account. -/
def update_policy_id (c : UpdatePolicyIdCall) :
    Except PredicateRegistryError PolicyIdAccount :=
  if c.policy_account.client_program ≠ c.client_program then
    .error .InvalidClientProgram else
  if c.policy_id = [] then .error .InvalidPolicyId else
  if 64 < c.policy_id.length then .error .PolicyIdTooLong else
  match updatePolicyIdAuthCheck c.program_data c.authority with
  | .error e => .error e
  | .ok _ =>
    .ok { c.policy_account with
          policy_id := c.policy_id
          updated_at := c.now }

/-- Helper: with valid policy arguments, `set_policy_id` is the
upgrade-authority verification followed by the account creation. -/
theorem set_policy_id_auth_spec (s : SetPolicyIdCall)
    (hs1 : s.policy_id ≠ []) (hs2 : s.policy_id.length ≤ 64)
    (hs3 : s.total_policies + 1 < 2 ^ 64) :
    set_policy_id s =
      match verify_upgrade_authority s.program_data s.authority with
      | .error e => .error e
      | .ok _ =>
        .ok { client_program := s.client_program, authority := s.authority,
              policy_id := s.policy_id, set_at := s.now,
              updated_at := s.now } := by
  unfold set_policy_id
  rw [if_neg (by simp [hs1]), if_neg (by omega)]
  cases hv : verify_upgrade_authority s.program_data s.authority with
  | error e => rw [show setPolicyIdAuthCheck s.program_data s.authority =
      .error e from hv]
  | ok v =>
    rw [show setPolicyIdAuthCheck s.program_data s.authority = .ok v from hv]
    rw [if_neg (by omega)]

/-- Helper: with the client-program constraint satisfied and valid policy
arguments, `update_policy_id` is the upgrade-authority verification
followed by the in-place update. -/
theorem update_policy_id_auth_spec (u : UpdatePolicyIdCall)
    (hu0 : u.policy_account.client_program = u.client_program)
    (hu1 : u.policy_id ≠ []) (hu2 : u.policy_id.length ≤ 64) :
    update_policy_id u =
      match verify_upgrade_authority u.program_data u.authority with
      | .error e => .error e
      | .ok _ =>
        .ok { u.policy_account with
              policy_id := u.policy_id
              updated_at := u.now } := by
  unfold update_policy_id
  rw [if_neg (by simp [hu0]), if_neg (by simp [hu1]), if_neg (by omega)]
  cases hv : verify_upgrade_authority u.program_data u.authority with
  | error e => rw [show updatePolicyIdAuthCheck u.program_data u.authority =
      .error e from hv]
  | ok v =>
    rw [show updatePolicyIdAuthCheck u.program_data u.authority = .ok v from hv]

/-- C7: with a valid policy id (and, for update, a matching policy
account; for set, a non-saturated counter), `set_policy_id` and
`update_policy_id` succeed exactly when the program-data account parses as
the fixed upgrade-authority layout — length at least 45, little-endian u32
discriminator 3, option byte 12 equal to 1, bytes 13..45 equal to the
signer — while a short buffer or wrong discriminator fails with
`InvalidProgramData` and an absent or non-matching authority fails with
`Unauthorized`. -/
theorem policy_id_upgrade_authority_gate (s : SetPolicyIdCall)
    (u : UpdatePolicyIdCall)
    (hs1 : s.policy_id ≠ []) (hs2 : s.policy_id.length ≤ 64)
    (hs3 : s.total_policies + 1 < 2 ^ 64)
    (hu0 : u.policy_account.client_program = u.client_program)
    (hu1 : u.policy_id ≠ []) (hu2 : u.policy_id.length ≤ 64) :
    ((s.program_data.length < 45 ∨
        programDataDiscriminator s.program_data ≠ 3) →
      set_policy_id s = .error .InvalidProgramData) ∧
    (45 ≤ s.program_data.length →
      programDataDiscriminator s.program_data = 3 →
      (s.program_data.getD 12 0 ≠ 1 ∨
        programDataAuthority s.program_data ≠ s.authority) →
      set_policy_id s = .error .Unauthorized) ∧
    ((∃ acc, set_policy_id s = .ok acc) ↔
      45 ≤ s.program_data.length ∧
        programDataDiscriminator s.program_data = 3 ∧
        s.program_data.getD 12 0 = 1 ∧
        programDataAuthority s.program_data = s.authority) ∧
    ((u.program_data.length < 45 ∨
        programDataDiscriminator u.program_data ≠ 3) →
      update_policy_id u = .error .InvalidProgramData) ∧
    (45 ≤ u.program_data.length →
      programDataDiscriminator u.program_data = 3 →
      (u.program_data.getD 12 0 ≠ 1 ∨
        programDataAuthority u.program_data ≠ u.authority) →
      update_policy_id u = .error .Unauthorized) ∧
    ((∃ acc, update_policy_id u = .ok acc) ↔
      45 ≤ u.program_data.length ∧
        programDataDiscriminator u.program_data = 3 ∧
        u.program_data.getD 12 0 = 1 ∧
        programDataAuthority u.program_data = u.authority) := by
  have hset := set_policy_id_auth_spec s hs1 hs2 hs3
  have hupd := update_policy_id_auth_spec u hu0 hu1 hu2
  have hEs := verify_upgrade_authority_errors s.program_data s.authority
  have hEu := verify_upgrade_authority_errors u.program_data u.authority
  have hOs := verify_upgrade_authority_ok_iff s.program_data s.authority
  have hOu := verify_upgrade_authority_ok_iff u.program_data u.authority
  refine ⟨fun hc => ?_, fun g1 g2 g3 => ?_, ⟨fun hex => ?_, fun hc => ?_⟩,
    fun hc => ?_, fun g1 g2 g3 => ?_, ⟨fun hex => ?_, fun hc => ?_⟩⟩
  · rw [hset, hEs.1 hc]
  · rw [hset, hEs.2 g1 g2 g3]
  · obtain ⟨acc, hacc⟩ := hex
    rw [hset] at hacc
    cases hv : verify_upgrade_authority s.program_data s.authority with
    | error e => rw [hv] at hacc; simp at hacc
    | ok v => cases v; exact hOs.mp hv
  · rw [hset, hOs.mpr hc]
    exact ⟨_, rfl⟩
  · rw [hupd, hEu.1 hc]
  · rw [hupd, hEu.2 g1 g2 g3]
  · obtain ⟨acc, hacc⟩ := hex
    rw [hupd] at hacc
    cases hv : verify_upgrade_authority u.program_data u.authority with
    | error e => rw [hv] at hacc; simp at hacc
    | ok v => cases v; exact hOu.mp hv
  · rw [hupd, hOu.mpr hc]
    exact ⟨_, rfl⟩

/-- A well-formed ProgramData buffer naming authority 40...40. -/
def goodProgramData : List Nat :=
  [3, 0, 0, 0] ++ List.replicate 8 0 ++ [1] ++ List.replicate 32 40

/-- A ProgramData buffer that is too short. -/
def shortProgramData : List Nat := [3, 0, 0]

/-- A ProgramData buffer whose option byte marks the authority absent. -/
def noAuthProgramData : List Nat :=
  [3, 0, 0, 0] ++ List.replicate 8 0 ++ [0] ++ List.replicate 32 40

/-- A valid `set_policy_id` call signed by the upgrade authority. -/
def setCallGood : SetPolicyIdCall where
  policy_id := [100, 101]
  program_data := goodProgramData
  client_program := List.replicate 32 3
  authority := List.replicate 32 40
  total_policies := 0
  now := 100

/-- `setCallGood` against a truncated ProgramData account. -/
def setCallShort : SetPolicyIdCall :=
  { setCallGood with program_data := shortProgramData }

/-- `setCallGood` against a ProgramData account with no authority set. -/
def setCallNoAuth : SetPolicyIdCall :=
  { setCallGood with program_data := noAuthProgramData }

/-- `setCallGood` signed by a key that is not the upgrade authority. -/
def setCallBadAuth : SetPolicyIdCall :=
  { setCallGood with authority := List.replicate 32 41 }

/-- A valid `update_policy_id` call signed by the upgrade authority. -/
def updCallGood : UpdatePolicyIdCall where
  policy_account :=
    { client_program := List.replicate 32 3, authority := List.replicate 32 40,
      policy_id := [100, 101], set_at := 100, updated_at := 100 }
  client_program := List.replicate 32 3
  policy_id := [102, 103]
  program_data := goodProgramData
  authority := List.replicate 32 40
  now := 200

/-- Witness for `policy_id_upgrade_authority_gate` at the concrete calls:
too-short data fails `InvalidProgramData`, absent and mismatched
authorities fail `Unauthorized`, and the well-formed matching calls
succeed for both instructions. -/
theorem policy_id_upgrade_authority_gate_witness :
    set_policy_id setCallShort = .error .InvalidProgramData ∧
    set_policy_id setCallNoAuth = .error .Unauthorized ∧
    set_policy_id setCallBadAuth = .error .Unauthorized ∧
    (∃ acc, set_policy_id setCallGood = .ok acc) ∧
    (∃ acc, update_policy_id updCallGood = .ok acc) :=
  ⟨(policy_id_upgrade_authority_gate setCallShort updCallGood (by decide)
      (by decide) (by decide) (by decide) (by decide) (by decide)).1
      (Or.inl (by decide)),
    (policy_id_upgrade_authority_gate setCallNoAuth updCallGood (by decide)
      (by decide) (by decide) (by decide) (by decide) (by decide)).2.1
      (by decide) (by decide) (Or.inl (by decide)),
    (policy_id_upgrade_authority_gate setCallBadAuth updCallGood (by decide)
      (by decide) (by decide) (by decide) (by decide) (by decide)).2.1
      (by decide) (by decide) (Or.inr (by decide)),
    (policy_id_upgrade_authority_gate setCallGood updCallGood (by decide)
      (by decide) (by decide) (by decide) (by decide) (by decide)).2.2.1.mpr
      ⟨by decide, by decide, by decide, by decide⟩,
    (policy_id_upgrade_authority_gate setCallGood updCallGood (by decide)
      (by decide) (by decide) (by decide) (by decide)
      (by decide)).2.2.2.2.2.mpr
      ⟨by decide, by decide, by decide, by decide⟩⟩

end SolContracts
